import Mathlib

/-!
Formal model of the show-control audio engine
(`src/core/cue_manager.py`, `src/core/breakpoint_manager.py`,
`src/core/audio_engine.py`, `src/core/controller.py` and the data models in
`src/models/`).

Modelling conventions:
* Python floats (positions, durations, volumes, wall-clock instants) are
  modelled as rationals `ℚ`.
* Wall-clock reads (`time.time()`) are threaded through the operations as an
  explicit `now : ℚ` argument.
* `uuid.uuid4()` and `datetime.now()` inside `BreakpointManager.save_breakpoint`
  are modelled by a fresh-name supply counter carried in the manager state.
* Python `dict` (insertion ordered) is modelled by an association list with
  in-place update.
* The pygame mixer is modelled by the fields of `AudioEngine` that the engine
  code itself reads and writes; a channel's busy flag changes only through the
  engine's own calls.
* Event emission (`_notify_listeners`) is modelled as an append-only event log;
  each notification also appends the `state_changed` meta event, as the source
  does.
-/

/-- A JSON value, the target of `to_dict` / source of `from_dict` in the
Python data models (`json.dumps`/`json.loads` are identity on this
representation). -/
inductive JVal where
  | jstr (s : String)
  | jnum (q : ℚ)
  | jbool (b : Bool)
  | jnull
  | jarr (xs : List JVal)
  | jobj (fields : List (String × JVal))

namespace JVal

/-- Dictionary lookup `data[key]` / `data.get(key)`. -/
def getField : JVal → String → Option JVal
  | jobj fields, key => fields.lookup key
  | _, _ => none

/-- Read a string value. -/
def asStr : JVal → Option String
  | jstr s => some s
  | _ => none

/-- Read a numeric value. -/
def asNum : JVal → Option ℚ
  | jnum q => some q
  | _ => none

/-- Read a boolean value. -/
def asBool : JVal → Option Bool
  | jbool b => some b
  | _ => none

/-- Read an array value. -/
def asArr : JVal → Option (List JVal)
  | jarr xs => some xs
  | _ => none

end JVal

open JVal

/-- `src/models/audio_track.py` — `AudioTrack` dataclass. -/
structure AudioTrack where
  id : String
  file_path : String
  duration : ℚ
  title : String
  track_type : String
deriving DecidableEq, Repr

namespace AudioTrack

/-- `AudioTrack.to_dict`. -/
def to_dict (a : AudioTrack) : JVal :=
  jobj [("id", jstr a.id), ("file_path", jstr a.file_path),
        ("duration", jnum a.duration), ("title", jstr a.title),
        ("track_type", jstr a.track_type)]

/-- `AudioTrack.from_dict` (key errors become `none`). -/
def from_dict (d : JVal) : Option AudioTrack := do
  let id ← (d.getField "id").bind asStr
  let file_path ← (d.getField "file_path").bind asStr
  let duration ← (d.getField "duration").bind asNum
  let title ← (d.getField "title").bind asStr
  let track_type ← (d.getField "track_type").bind asStr
  pure ⟨id, file_path, duration, title, track_type⟩

end AudioTrack

/-- `src/models/cue.py` — `Cue` dataclass. -/
structure Cue where
  id : String
  audio_id : String
  start_time : ℚ
  end_time : Option ℚ
  silence_before : ℚ
  silence_after : ℚ
  volume : ℚ
  label : String
deriving DecidableEq, Repr

namespace Cue

/-- `Cue.to_dict` (`asdict`; an absent `end_time` serializes as null). -/
def to_dict (c : Cue) : JVal :=
  jobj [("id", jstr c.id), ("audio_id", jstr c.audio_id),
        ("start_time", jnum c.start_time),
        ("end_time", match c.end_time with | some q => jnum q | none => jnull),
        ("silence_before", jnum c.silence_before),
        ("silence_after", jnum c.silence_after),
        ("volume", jnum c.volume), ("label", jstr c.label)]

/-- `Cue.from_dict`: `id`, `audio_id`, `start_time` are mandatory,
`end_time` defaults to `None`, `silence_before`/`silence_after` to `0.0`,
`volume` to `1.0` and `label` to `""`. -/
def from_dict (d : JVal) : Option Cue := do
  let id ← (d.getField "id").bind asStr
  let audio_id ← (d.getField "audio_id").bind asStr
  let start_time ← (d.getField "start_time").bind asNum
  let end_time ← match d.getField "end_time" with
    | none => some none
    | some jnull => some none
    | some v => (asNum v).map some
  let silence_before ← match d.getField "silence_before" with
    | none => some 0
    | some v => asNum v
  let silence_after ← match d.getField "silence_after" with
    | none => some 0
    | some v => asNum v
  let volume ← match d.getField "volume" with
    | none => some 1
    | some v => asNum v
  let label ← match d.getField "label" with
    | none => some ""
    | some v => asStr v
  pure ⟨id, audio_id, start_time, end_time, silence_before, silence_after,
        volume, label⟩

end Cue

/-- The list comprehension `[X.from_dict(v) for v in vs]`: element-wise
deserialization, failing when any element fails. -/
def fromDictList {α : Type} (fromD : JVal → Option α) : List JVal → Option (List α)
  | [] => some []
  | v :: vs =>
    match fromD v with
    | none => none
    | some x => (fromDictList fromD vs).map (fun xs => x :: xs)

/-- `src/models/cue_config.py` — `CueListConfig` dataclass.  The `created_at`
datetime is modelled by its ISO-8601 string (`isoformat` and `fromisoformat`
are mutually inverse). -/
structure CueListConfig where
  version : String
  name : String
  created_at : String
  cues : List Cue
  audio_files : List AudioTrack
deriving DecidableEq, Repr

namespace CueListConfig

/-- `CueListConfig.to_dict`. -/
def to_dict (c : CueListConfig) : JVal :=
  jobj [("version", jstr c.version), ("name", jstr c.name),
        ("created_at", jstr c.created_at),
        ("cues", jarr (c.cues.map Cue.to_dict)),
        ("audio_files", jarr (c.audio_files.map AudioTrack.to_dict))]

/-- `CueListConfig.from_dict`: `cues` and `audio_files` default to `[]`. -/
def from_dict (d : JVal) : Option CueListConfig := do
  let version ← (d.getField "version").bind asStr
  let name ← (d.getField "name").bind asStr
  let created_at ← (d.getField "created_at").bind asStr
  let cuesRaw ← match d.getField "cues" with
    | none => some []
    | some v => asArr v
  let cues ← fromDictList Cue.from_dict cuesRaw
  let audioRaw ← match d.getField "audio_files" with
    | none => some []
    | some v => asArr v
  let audio_files ← fromDictList AudioTrack.from_dict audioRaw
  pure ⟨version, name, created_at, cues, audio_files⟩

end CueListConfig

/-- `src/models/breakpoint.py` — `Breakpoint` dataclass (`created_at`
modelled by its ISO string). -/
structure Breakpoint where
  id : String
  audio_id : String
  position : ℚ
  label : String
  created_at : String
  auto_saved : Bool
deriving DecidableEq, Repr

/-- `src/core/cue_manager.py` — the mutable state of `CueManager`. -/
structure CueManager where
  cue_list : List Cue
  audio_files : List AudioTrack
  current_index : ℕ
  is_playing : Bool
deriving DecidableEq, Repr

namespace CueManager

/-- `CueManager.__init__`. -/
def init : CueManager := ⟨[], [], 0, false⟩

/-- `CueManager.get_current_cue`. -/
def get_current_cue (m : CueManager) : Option Cue :=
  if m.cue_list = [] ∨ m.cue_list.length ≤ m.current_index then none
  else m.cue_list.get? m.current_index

/-- `CueManager.get_next_cue`. -/
def get_next_cue (m : CueManager) : Option Cue :=
  if m.cue_list = [] ∨ m.cue_list.length ≤ m.current_index + 1 then none
  else m.cue_list.get? (m.current_index + 1)

/-- `CueManager.advance`: step to the next cue if one exists, returning the
new current cue, else return `none` leaving the index unchanged. -/
def advance (m : CueManager) : Option Cue × CueManager :=
  if m.current_index + 1 < m.cue_list.length then
    let m' := { m with current_index := m.current_index + 1 }
    (m'.get_current_cue, m')
  else (none, m)

/-- `CueManager.reset`. -/
def reset (m : CueManager) : CueManager :=
  { m with current_index := 0, is_playing := false }

/-- `CueManager.set_index`. -/
def set_index (m : CueManager) (index : ℕ) : Bool × CueManager :=
  if index < m.cue_list.length then
    (true, { m with current_index := index })
  else (false, m)

/-- `CueManager.add_cue`. -/
def add_cue (m : CueManager) (cue : Cue) : CueManager :=
  { m with cue_list := m.cue_list ++ [cue] }

/-- `CueManager.insert_cue`: insert at `index ∈ [0, len]`; the current index
is bumped when the insertion point is at or before it (the emptiness test in
the source inspects the list after the insertion). -/
def insert_cue (m : CueManager) (index : ℕ) (cue : Cue) : Bool × CueManager :=
  if index ≤ m.cue_list.length then
    let l' := m.cue_list.insertIdx index cue
    let ci := if index ≤ m.current_index ∧ l' ≠ [] then m.current_index + 1
              else m.current_index
    (true, { m with cue_list := l', current_index := ci })
  else (false, m)

/-- `CueManager.remove_cue`: remove the first cue whose id matches, adjusting
the current index as the source does. -/
def remove_cue (m : CueManager) (cue_id : String) : Bool × CueManager :=
  match m.cue_list.findIdx? (fun c => c.id = cue_id) with
  | none => (false, m)
  | some i =>
    let l' := m.cue_list.eraseIdx i
    let ci := if i < m.current_index then m.current_index - 1
              else if i = m.current_index ∧ l'.length ≤ m.current_index then
                l'.length - 1
              else m.current_index
    (true, { m with cue_list := l', current_index := ci })

/-- `CueManager.move_cue`: `pop(from)` then `insert(to)`, with the source's
current-index adjustment. -/
def move_cue (m : CueManager) (src dst : ℕ) : Bool × CueManager :=
  if src < m.cue_list.length ∧ dst < m.cue_list.length then
    match m.cue_list.get? src with
    | none => (false, m)
    | some cue =>
      let l' := (m.cue_list.eraseIdx src).insertIdx dst cue
      let ci := if src = m.current_index then dst
                else if src < m.current_index ∧ m.current_index ≤ dst then
                  m.current_index - 1
                else if dst ≤ m.current_index ∧ m.current_index < src then
                  m.current_index + 1
                else m.current_index
      (true, { m with cue_list := l', current_index := ci })
  else (false, m)

/-- `CueManager.clear_cues`. -/
def clear_cues (m : CueManager) : CueManager :=
  { m with cue_list := [], current_index := 0, is_playing := false }

/-- `CueManager.add_audio_file`. -/
def add_audio_file (m : CueManager) (audio : AudioTrack) : CueManager :=
  { m with audio_files := m.audio_files ++ [audio] }

/-- The loop body of `CueManager.remove_audio_file`: remove the first track
whose id matches, reporting whether one was found. -/
def removeAudioLoop : List AudioTrack → String → Bool × List AudioTrack
  | [], _ => (false, [])
  | a :: rest, audio_id =>
    if a.id = audio_id then (true, rest)
    else
      let r := removeAudioLoop rest audio_id
      (r.1, a :: r.2)

/-- `CueManager.remove_audio_file`.  Note: the source removes the track by id
unconditionally — it performs no check that a cue still references it. -/
def remove_audio_file (m : CueManager) (audio_id : String) : Bool × CueManager :=
  let r := removeAudioLoop m.audio_files audio_id
  (r.1, { m with audio_files := r.2 })

/-- `CueManager.get_audio_file`. -/
def get_audio_file (m : CueManager) (audio_id : String) : Option AudioTrack :=
  m.audio_files.find? (fun a => a.id = audio_id)

/-- `CueManager.contains_cue`. -/
def contains_cue (m : CueManager) (cue_id : String) : Bool :=
  m.cue_list.any (fun c => c.id = cue_id)

/-- The index invariant of the spec: `current_index ∈ [0, |cues|)` when the
catalog is non-empty, and `current_index = 0` when it is empty. -/
def IndexInv (m : CueManager) : Prop :=
  if m.cue_list = [] then m.current_index = 0
  else m.current_index < m.cue_list.length

instance (m : CueManager) : Decidable m.IndexInv := by
  unfold IndexInv; infer_instance

end CueManager

/-- In-place association-list update: Python `dict[key] = value` (the key
keeps its position when present, otherwise it is appended). -/
def assocSet {α : Type} : List (String × α) → String → α → List (String × α)
  | [], key, v => [(key, v)]
  | (k, w) :: rest, key, v =>
    if k = key then (k, v) :: rest else (k, w) :: assocSet rest key v

/-- `src/core/breakpoint_manager.py` — the state of `BreakpointManager`:
the per-audio dict of breakpoint lists plus the fresh-name supply that
models `uuid.uuid4()` / `datetime.now()`. -/
structure BreakpointManager where
  breakpoints : List (String × List Breakpoint)
  next_id : ℕ
deriving DecidableEq, Repr

namespace BreakpointManager

/-- `BreakpointManager.__init__`. -/
def init : BreakpointManager := ⟨[], 0⟩

/-- `BreakpointManager.get_breakpoints`: all breakpoints of one audio
(`[]` when the audio has none). -/
def get_breakpoints (m : BreakpointManager) (audio_id : String) :
    List Breakpoint :=
  (m.breakpoints.lookup audio_id).getD []

/-- `BreakpointManager.save_breakpoint`: append a fresh breakpoint to the
audio's list, returning the fresh id. -/
def save_breakpoint (m : BreakpointManager) (audio_id : String) (position : ℚ)
    (label : String := "") (auto_saved : Bool := false) :
    String × BreakpointManager :=
  let bp_id := "bp-" ++ toString m.next_id
  let bp : Breakpoint :=
    ⟨bp_id, audio_id, position, label, "t-" ++ toString m.next_id, auto_saved⟩
  (bp_id,
   ⟨assocSet m.breakpoints audio_id (m.get_breakpoints audio_id ++ [bp]),
    m.next_id + 1⟩)

/-- `BreakpointManager.get_breakpoint`. -/
def get_breakpoint (m : BreakpointManager) (audio_id bp_id : String) :
    Option Breakpoint :=
  (m.get_breakpoints audio_id).find? (fun bp => bp.id = bp_id)

/-- `BreakpointManager.delete_breakpoint`: filter the audio's list by id,
reporting whether it shrank. -/
def delete_breakpoint (m : BreakpointManager) (audio_id bp_id : String) :
    Bool × BreakpointManager :=
  match m.breakpoints.lookup audio_id with
  | none => (false, m)
  | some l =>
    let l' := l.filter (fun bp => bp.id ≠ bp_id)
    (decide (l'.length < l.length),
     { m with breakpoints := assocSet m.breakpoints audio_id l' })

/-- `BreakpointManager.clear_audio_breakpoints`. -/
def clear_audio_breakpoints (m : BreakpointManager) (audio_id : String) :
    BreakpointManager :=
  match m.breakpoints.lookup audio_id with
  | none => m
  | some _ => { m with breakpoints := assocSet m.breakpoints audio_id [] }

/-- `BreakpointManager.clear_selected`: remove every listed id from every
audio's list, returning the number actually deleted. -/
def clear_selected (m : BreakpointManager) (bp_ids : List String) :
    ℕ × BreakpointManager :=
  let bps' := m.breakpoints.map
    (fun e => (e.1, e.2.filter (fun bp => bp.id ∉ bp_ids)))
  let deleted := (m.breakpoints.zip bps').foldl
    (fun acc e => acc + (e.1.2.length - e.2.2.length)) 0
  (deleted, { m with breakpoints := bps' })

end BreakpointManager

/-- `src/core/audio_engine.py` — the engine state the code reads and writes.
`sfx_busy` is the busy flag of each of the SFX channels (default 8);
`playing_sfx` maps an sfx id to its channel index; `sfx_sounds` is the
loaded-sound registry; `bgm_sound` records whether a BGM sound is loaded and
`bgm_busy` whether the BGM channel is busy. -/
structure AudioEngine where
  sfx_busy : List Bool
  playing_sfx : List (String × ℕ)
  sfx_sounds : List String
  current_bgm : Option AudioTrack
  bgm_sound : Bool
  bgm_busy : Bool
  bgm_start_pos : ℚ
  bgm_paused_pos : ℚ
  bgm_is_paused : Bool
  bgm_volume : ℚ
  sfx_volume : ℚ
deriving DecidableEq, Repr

namespace AudioEngine

/-- `AudioEngine.__init__` with the default 8 SFX channels. -/
def init : AudioEngine :=
  ⟨List.replicate 8 false, [], [], none, false, false, 0, 0, false, 1, 1⟩

/-- `AudioEngine.play_bgm`: load the track and start the BGM channel at
`start_pos` (the source stops any previous BGM first; the position offset is
only recorded, as the underlying channel cannot seek). -/
def play_bgm (e : AudioEngine) (track : AudioTrack) (start_pos : ℚ) :
    AudioEngine :=
  { e with current_bgm := some track, bgm_sound := true, bgm_busy := true,
           bgm_start_pos := start_pos, bgm_is_paused := false,
           bgm_paused_pos := 0 }

/-- `AudioEngine._get_bgm_position_internal`: the paused position when
paused, `0` without a loaded busy channel, else the recorded start offset
(the source's documented simplification). -/
def bgm_position_internal (e : AudioEngine) : ℚ :=
  if e.bgm_is_paused then e.bgm_paused_pos
  else if ¬e.bgm_sound ∨ ¬e.bgm_busy then 0
  else e.bgm_start_pos

/-- `AudioEngine.pause_bgm`. -/
def pause_bgm (e : AudioEngine) : AudioEngine :=
  if e.bgm_busy ∨ e.bgm_sound then
    { e with bgm_paused_pos := e.bgm_position_internal, bgm_is_paused := true }
  else e

/-- `AudioEngine.stop_bgm`: returns the position at which playback halted. -/
def stop_bgm (e : AudioEngine) : ℚ × AudioEngine :=
  (e.bgm_position_internal,
   { e with bgm_busy := false, bgm_is_paused := false, bgm_paused_pos := 0,
            current_bgm := none, bgm_sound := false })

/-- Busy flag of a channel index. -/
def channelBusy (e : AudioEngine) (ch : ℕ) : Bool :=
  (e.sfx_busy.get? ch).getD false

/-- `AudioEngine._find_free_sfx_channel`: the first non-busy channel. -/
def find_free_sfx_channel (e : AudioEngine) : Option ℕ :=
  e.sfx_busy.findIdx? (fun b => b = false)

/-- `AudioEngine.is_sfx_playing`. -/
def is_sfx_playing (e : AudioEngine) (sfx_id : String) : Bool :=
  match e.playing_sfx.lookup sfx_id with
  | none => false
  | some ch => e.channelBusy ch

/-- `AudioEngine.play_sfx`: restart the sfx if already registered, then claim
a free channel; `false` when the pool is exhausted. -/
def play_sfx (e : AudioEngine) (sfx_id : String) (_track : AudioTrack) :
    Bool × AudioEngine :=
  let e1 := match e.playing_sfx.lookup sfx_id with
    | some ch =>
      { e with sfx_busy := e.sfx_busy.set ch false,
               playing_sfx := e.playing_sfx.filter (fun p => p.1 ≠ sfx_id) }
    | none => e
  match e1.find_free_sfx_channel with
  | none => (false, e1)
  | some ch =>
    (true,
     { e1 with sfx_busy := e1.sfx_busy.set ch true,
               playing_sfx := e1.playing_sfx ++ [(sfx_id, ch)],
               sfx_sounds := if sfx_id ∈ e1.sfx_sounds then e1.sfx_sounds
                             else e1.sfx_sounds ++ [sfx_id] })

/-- `AudioEngine.stop_sfx`. -/
def stop_sfx (e : AudioEngine) (sfx_id : String) : Bool × AudioEngine :=
  match e.playing_sfx.lookup sfx_id with
  | none => (false, e)
  | some ch =>
    (true,
     { e with sfx_busy := e.sfx_busy.set ch false,
              playing_sfx := e.playing_sfx.filter (fun p => p.1 ≠ sfx_id),
              sfx_sounds := e.sfx_sounds.filter (fun s => s ≠ sfx_id) })

/-- `AudioEngine.set_bgm_volume`: clamp to `[0, 3]`. -/
def set_bgm_volume (e : AudioEngine) (volume : ℚ) : AudioEngine :=
  { e with bgm_volume := max 0 (min 3 volume) }

/-- `AudioEngine.set_sfx_volume`: clamp to `[0, 3]`. -/
def set_sfx_volume (e : AudioEngine) (volume : ℚ) : AudioEngine :=
  { e with sfx_volume := max 0 (min 3 volume) }

end AudioEngine

/-- `src/core/controller.py` — `PlayMode`. -/
inductive PlayMode where
  | AUTO
  | MANUAL
deriving DecidableEq, Repr

/-- `src/core/controller.py` — `EventType`. -/
inductive EventType where
  | state_changed
  | mode_changed
  | cue_changed
  | playback_started
  | playback_paused
  | playback_stopped
  | playback_completed
  | breakpoint_saved
  | volume_changed
  | silence_started
  | silence_ended
  | sfx_started
  | sfx_stopped
deriving DecidableEq, Repr

/-- An entry of `_pending_remote_ops` (the only kwarg ever stored is seek's
`position`). -/
structure PendingOp where
  op : String
  source : String
  position : Option ℚ
  timestamp : ℚ
deriving DecidableEq, Repr

/-- `src/core/controller.py` — the mutable state of `CoreController`,
together with the log of emitted events. -/
structure Controller where
  engine : AudioEngine
  cue_manager : CueManager
  breakpoint_manager : BreakpointManager
  mode : PlayMode
  is_playing : Bool
  is_paused : Bool
  current_audio_id : Option String
  current_position : ℚ
  bgm_volume : ℚ
  sfx_volume : ℚ
  in_silence : Bool
  silence_remaining : ℚ
  silence_start_time : Option ℚ
  silence_duration : ℚ
  manual_audio : Option AudioTrack
  manual_start_pos : ℚ
  manual_silence_before : ℚ
  paused_audio_id : Option String
  paused_position : ℚ
  local_priority : Bool
  pending_remote_ops : List PendingOp
  playback_start_time : Option ℚ
  playback_start_position : ℚ
  events : List EventType
deriving DecidableEq, Repr

namespace Controller

/-- `CoreController.__init__` on fresh components. -/
def init : Controller :=
  { engine := AudioEngine.init, cue_manager := CueManager.init,
    breakpoint_manager := BreakpointManager.init,
    mode := PlayMode.AUTO, is_playing := false, is_paused := false,
    current_audio_id := none, current_position := 0,
    bgm_volume := 1, sfx_volume := 1,
    in_silence := false, silence_remaining := 0, silence_start_time := none,
    silence_duration := 0,
    manual_audio := none, manual_start_pos := 0, manual_silence_before := 0,
    paused_audio_id := none, paused_position := 0,
    local_priority := true, pending_remote_ops := [],
    playback_start_time := none, playback_start_position := 0, events := [] }

/-- `_notify_listeners`: log the event, then the `state_changed` meta event
(unless the event is itself `state_changed`). -/
def notify (c : Controller) (e : EventType) : Controller :=
  { c with events := c.events ++ [e] ++
      (if e = EventType.state_changed then [] else [EventType.state_changed]) }

/-- `_check_priority`: local commands always pass; remote ones only when
`local_priority` is off. -/
def check_priority (c : Controller) (source : String) : Bool :=
  if source = "local" then true else !c.local_priority

/-- `_queue_remote_op`. -/
def queue_remote_op (c : Controller) (op source : String) (position : Option ℚ)
    (now : ℚ) : Controller :=
  { c with pending_remote_ops :=
      c.pending_remote_ops ++ [⟨op, source, position, now⟩] }

/-- Python truthiness of the optional audio-id strings
(`if self._current_audio_id:` is false for `None` and for `""`). -/
def strTruthy : Option String → Bool
  | none => false
  | some s => !s.isEmpty

/-- `_get_current_position`: the recorded position when paused or idle, else
the start position plus wall-clock elapsed time. -/
def position_at (c : Controller) (now : ℚ) : ℚ :=
  if c.is_paused then c.current_position
  else
    match c.playback_start_time with
    | none => c.current_position
    | some t =>
      if c.is_playing then c.playback_start_position + (now - t)
      else c.current_position

/-- `_start_silence`. -/
def start_silence (c : Controller) (duration : ℚ) (now : ℚ) : Controller :=
  notify { c with in_silence := true, silence_duration := duration,
                  silence_remaining := duration,
                  silence_start_time := some now }
    EventType.silence_started

/-- `_play_auto_mode`. -/
def play_auto_mode (c : Controller) (now : ℚ) : Bool × Controller :=
  match c.cue_manager.get_current_cue with
  | none => (false, c)
  | some cue =>
    match c.cue_manager.get_audio_file cue.audio_id with
    | none => (false, c)
    | some audio =>
      if 0 < cue.silence_before ∧ ¬c.in_silence ∧ ¬c.is_playing then
        (true, c.start_silence cue.silence_before now)
      else
        let c1 := { c with
          engine := c.engine.play_bgm audio cue.start_time,
          is_playing := true, is_paused := false,
          current_audio_id := some audio.id,
          current_position := cue.start_time,
          playback_start_time := some now,
          playback_start_position := cue.start_time,
          cue_manager := { c.cue_manager with is_playing := true } }
        (true, c1.notify EventType.playback_started)

/-- `_play_manual_mode`. -/
def play_manual_mode (c : Controller) (now : ℚ) : Bool × Controller :=
  match c.manual_audio with
  | none => (false, c)
  | some audio =>
    if 0 < c.manual_silence_before ∧ ¬c.in_silence ∧ ¬c.is_playing then
      (true, c.start_silence c.manual_silence_before now)
    else
      let c1 := { c with
        engine := c.engine.play_bgm audio c.manual_start_pos,
        is_playing := true, is_paused := false,
        current_audio_id := some audio.id,
        current_position := c.manual_start_pos,
        playback_start_time := some now,
        playback_start_position := c.manual_start_pos }
      (true, c1.notify EventType.playback_started)

/-- `CoreController.play`. -/
def play (c : Controller) (source : String) (now : ℚ) : Bool × Controller :=
  if ¬c.check_priority source then
    (false, c.queue_remote_op "play" source none now)
  else
    match c.mode with
    | PlayMode.AUTO => c.play_auto_mode now
    | PlayMode.MANUAL => c.play_manual_mode now

/-- `CoreController.pause`. -/
def pause (c : Controller) (source : String) (now : ℚ) : Bool × Controller :=
  if ¬c.check_priority source then
    (false, c.queue_remote_op "pause" source none now)
  else if ¬c.is_playing ∨ c.is_paused then (false, c)
  else
    let pos := c.position_at now
    let c1 := { c with current_position := pos }
    let c2 :=
      if strTruthy c1.current_audio_id then
        { c1 with breakpoint_manager :=
            (c1.breakpoint_manager.save_breakpoint
              (c1.current_audio_id.getD "") pos "暂停自动保存" true).2 }
      else c1
    let c3 := { c2 with engine := c2.engine.pause_bgm, is_paused := true,
                        paused_audio_id := c2.current_audio_id,
                        paused_position := pos }
    (true, c3.notify EventType.playback_paused)

/-- `CoreController.resume`: re-seek from the recorded pause position. -/
def resume (c : Controller) (source : String) (now : ℚ) : Bool × Controller :=
  if ¬c.check_priority source then
    (false, c.queue_remote_op "resume" source none now)
  else if ¬c.is_paused then (false, c)
  else
    let resume_position :=
      if 0 < c.paused_position then c.paused_position else c.current_position
    let audio : Option AudioTrack :=
      if c.mode = PlayMode.MANUAL ∧ c.manual_audio.isSome then c.manual_audio
      else if strTruthy c.paused_audio_id then
        match c.cue_manager.get_audio_file (c.paused_audio_id.getD "") with
        | some a => some a
        | none =>
          match c.manual_audio with
          | some ma =>
            if some ma.id = c.paused_audio_id then some ma else none
          | none => none
      else if c.mode = PlayMode.AUTO then
        match c.cue_manager.get_current_cue with
        | some cue => c.cue_manager.get_audio_file cue.audio_id
        | none => none
      else none
    match audio with
    | none => (false, c)
    | some a =>
      let c1 := { c with
        engine := c.engine.play_bgm a resume_position,
        is_paused := false, is_playing := true,
        playback_start_time := some now,
        playback_start_position := resume_position,
        current_position := resume_position }
      (true, c1.notify EventType.playback_started)

/-- `CoreController.stop` (note: `current_audio_id` is not cleared). -/
def stop (c : Controller) (source : String) (now : ℚ) : Bool × Controller :=
  if ¬c.check_priority source then
    (false, c.queue_remote_op "stop" source none now)
  else
    let c1 := { c with
      engine := c.engine.stop_bgm.2,
      is_playing := false, is_paused := false, current_position := 0,
      playback_start_time := none, playback_start_position := 0,
      cue_manager := { c.cue_manager with is_playing := false },
      paused_audio_id := none, paused_position := 0 }
    let c2 :=
      if c1.in_silence then
        { c1 with in_silence := false, silence_remaining := 0,
                  silence_start_time := none, silence_duration := 0 }
      else c1
    (true, c2.notify EventType.playback_stopped)

/-- `CoreController.next_cue` (AUTO only). -/
def next_cue (c : Controller) (source : String) (now : ℚ) : Bool × Controller :=
  if ¬c.check_priority source then
    (false, c.queue_remote_op "next_cue" source none now)
  else if c.mode ≠ PlayMode.AUTO then (false, c)
  else
    let c1 := { c with engine := c.engine.stop_bgm.2 }
    let c2 :=
      if c1.in_silence then
        { c1 with in_silence := false, silence_remaining := 0 }
      else c1
    match c2.cue_manager.advance with
    | (none, cm') =>
      (false, { c2 with cue_manager := { cm' with is_playing := false },
                        is_playing := false, is_paused := false })
    | (some _, cm') =>
      let c3 := notify { c2 with cue_manager := cm' } EventType.cue_changed
      c3.play_auto_mode now

/-- `CoreController.seek`: replay from the target position; if the previous
state was not actively playing, immediately re-pause. -/
def seek (c : Controller) (position : ℚ) (source : String) (now : ℚ) :
    Bool × Controller :=
  if ¬c.check_priority source then
    (false, c.queue_remote_op "seek" source (some position) now)
  else if c.current_audio_id = none then (false, c)
  else
    let audio : Option AudioTrack :=
      match c.mode with
      | PlayMode.AUTO =>
        match c.cue_manager.get_current_cue with
        | none => none
        | some cue => c.cue_manager.get_audio_file cue.audio_id
      | PlayMode.MANUAL => c.manual_audio
    match audio with
    | none => (false, c)
    | some a =>
      if position < 0 ∨ a.duration < position then (false, c)
      else
        let was_playing := c.is_playing ∧ ¬c.is_paused
        let c1 := { c with
          engine := (c.engine.stop_bgm.2).play_bgm a position,
          current_position := position,
          playback_start_time := some now,
          playback_start_position := position }
        if was_playing then (true, c1)
        else
          (true, { c1 with engine := c1.engine.pause_bgm, is_paused := true })

/-- `CoreController.replay`: restart the current audio from its start
position (no breakpoint is written). -/
def replay (c : Controller) (source : String) (now : ℚ) : Bool × Controller :=
  if ¬c.check_priority source then
    (false, c.queue_remote_op "replay" source none now)
  else
    let info : Option (AudioTrack × ℚ) :=
      match c.mode with
      | PlayMode.AUTO =>
        match c.cue_manager.get_current_cue with
        | none => none
        | some cue =>
          match c.cue_manager.get_audio_file cue.audio_id with
          | none => none
          | some a => some (a, cue.start_time)
      | PlayMode.MANUAL =>
        match c.manual_audio with
        | none => none
        | some a => some (a, 0)
    match info with
    | none => (false, c)
    | some (a, start_pos) =>
      let c1 := { c with
        engine := (c.engine.stop_bgm.2).play_bgm a start_pos,
        is_playing := true, is_paused := false,
        current_position := start_pos,
        playback_start_time := some now,
        playback_start_position := start_pos }
      (true, c1.notify EventType.playback_started)

/-- `CoreController.play_sfx`. -/
def play_sfx (c : Controller) (sfx_id : String) (track : AudioTrack) :
    Bool × Controller :=
  let r := c.engine.play_sfx sfx_id track
  let c1 := { c with engine := r.2 }
  if r.1 then (true, c1.notify EventType.sfx_started) else (false, c1)

/-- `CoreController.stop_sfx`. -/
def stop_sfx (c : Controller) (sfx_id : String) : Bool × Controller :=
  let r := c.engine.stop_sfx sfx_id
  let c1 := { c with engine := r.2 }
  if r.1 then (true, c1.notify EventType.sfx_stopped) else (false, c1)

/-- `CoreController.toggle_sfx`: stop when playing, else play — returning
`true` in the play branch without consulting `play_sfx`'s result. -/
def toggle_sfx (c : Controller) (sfx_id : String) (track : AudioTrack) :
    Bool × Controller :=
  if c.engine.is_sfx_playing sfx_id then
    let c1 := { c with engine := (c.engine.stop_sfx sfx_id).2 }
    (false, c1.notify EventType.sfx_stopped)
  else
    let c1 := { c with engine := (c.engine.play_sfx sfx_id track).2 }
    (true, c1.notify EventType.sfx_started)

/-- `CoreController.set_bgm_volume`: clamp to `[0, 3]`, push to the engine,
emit `volume_changed`. -/
def set_bgm_volume (c : Controller) (volume : ℚ) : Controller :=
  let v := max 0 (min 3 volume)
  notify { c with bgm_volume := v, engine := c.engine.set_bgm_volume v }
    EventType.volume_changed

/-- `CoreController.get_bgm_volume`. -/
def get_bgm_volume (c : Controller) : ℚ := c.bgm_volume

/-- `CoreController.set_sfx_volume`. -/
def set_sfx_volume (c : Controller) (volume : ℚ) : Controller :=
  let v := max 0 (min 3 volume)
  notify { c with sfx_volume := v, engine := c.engine.set_sfx_volume v }
    EventType.volume_changed

/-- `CoreController.get_sfx_volume`. -/
def get_sfx_volume (c : Controller) : ℚ := c.sfx_volume

/-- `CoreController.switch_mode` (seamless: the flags are left untouched). -/
def switch_mode (c : Controller) (mode : PlayMode) (now : ℚ) :
    Bool × Controller :=
  if c.mode = mode then (true, c)
  else
    let current_pos := c.position_at now
    let was_playing := c.is_playing ∧ ¬c.is_paused
    let was_paused := c.is_paused
    let current_audio : Option AudioTrack :=
      match c.mode with
      | PlayMode.AUTO =>
        match c.cue_manager.get_current_cue with
        | none => none
        | some cue => c.cue_manager.get_audio_file cue.audio_id
      | PlayMode.MANUAL => c.manual_audio
    let c1 := { c with mode := mode }
    let c2 :=
      match mode with
      | PlayMode.MANUAL =>
        match current_audio with
        | some a =>
          { c1 with manual_audio := some a,
                    manual_start_pos :=
                      if was_playing ∨ was_paused then current_pos else 0 }
        | none => c1
      | PlayMode.AUTO =>
        match c1.manual_audio with
        | some ma =>
          match c1.cue_manager.cue_list.findIdx?
              (fun cue => Cue.audio_id cue = ma.id) with
          | some i =>
            { c1 with cue_manager := (c1.cue_manager.set_index i).2 }
          | none => c1
        | none => c1
    (true, c2.notify EventType.mode_changed)

/-- `CoreController.set_manual_audio`: switching away from a playing audio
saves an auto breakpoint for it first. -/
def set_manual_audio (c : Controller) (audio : AudioTrack) (now : ℚ) :
    Controller :=
  let c1 :=
    if c.is_playing ∧ strTruthy c.current_audio_id ∧
        c.current_audio_id ≠ some audio.id then
      { c with breakpoint_manager :=
          (c.breakpoint_manager.save_breakpoint (c.current_audio_id.getD "")
            (c.position_at now) "切换音频自动保存" true).2 }
    else c
  { c1 with manual_audio := some audio, manual_start_pos := 0,
            manual_silence_before := 0 }

/-- `CoreController.save_breakpoint` (operator request, `auto_saved=false`). -/
def save_breakpoint (c : Controller) (label : String) (now : ℚ) :
    Option String × Controller :=
  match c.current_audio_id with
  | none => (none, c)
  | some aid =>
    let pos := c.position_at now
    let r := c.breakpoint_manager.save_breakpoint aid pos label
    (some r.1,
     notify { c with breakpoint_manager := r.2 } EventType.breakpoint_saved)

/-- `CoreController.restore_breakpoint`: if a BGM is currently playing
(paused or not), an auto breakpoint is saved for it first, then playback
restarts at the stored position. -/
def restore_breakpoint (c : Controller) (audio_id bp_id : String) (now : ℚ) :
    Bool × Controller :=
  match c.breakpoint_manager.get_breakpoint audio_id bp_id with
  | none => (false, c)
  | some bp =>
    match c.cue_manager.get_audio_file audio_id with
    | none => (false, c)
    | some audio =>
      let c1 :=
        if c.is_playing ∧ strTruthy c.current_audio_id then
          { c with breakpoint_manager :=
              (c.breakpoint_manager.save_breakpoint (c.current_audio_id.getD "")
                (c.position_at now) "" true).2 }
        else c
      let c2 := { c1 with
        engine := (c1.engine.stop_bgm.2).play_bgm audio bp.position,
        is_playing := true, is_paused := false,
        current_audio_id := some audio_id,
        current_position := bp.position,
        playback_start_time := some now,
        playback_start_position := bp.position }
      let c3 :=
        if c2.mode = PlayMode.MANUAL then
          { c2 with manual_audio := some audio, manual_start_pos := bp.position }
        else c2
      (true, c3.notify EventType.playback_started)

/-- `CoreController.play_new_bgm`: when a BGM is actively playing (not
paused) an auto breakpoint is stored for it — whatever the incoming track —
then the new BGM starts. -/
def play_new_bgm (c : Controller) (audio : AudioTrack) (start_pos : ℚ)
    (now : ℚ) : Bool × Controller :=
  let c1 :=
    if c.is_playing ∧ strTruthy c.current_audio_id ∧ ¬c.is_paused then
      { c with breakpoint_manager :=
          (c.breakpoint_manager.save_breakpoint (c.current_audio_id.getD "")
            (c.position_at now) "自动保存" true).2 }
    else c
  let c2 := { c1 with
    engine := (c1.engine.stop_bgm.2).play_bgm audio start_pos,
    is_playing := true, is_paused := false,
    current_audio_id := some audio.id,
    current_position := start_pos,
    playback_start_time := some now,
    playback_start_position := start_pos }
  let c3 :=
    if c2.mode = PlayMode.MANUAL then
      { c2 with manual_audio := some audio, manual_start_pos := start_pos }
    else c2
  (true, c3.notify EventType.playback_started)

/-- `CoreController.skip_silence`. -/
def skip_silence (c : Controller) (now : ℚ) : Bool × Controller :=
  if ¬c.in_silence then (false, c)
  else
    let c1 := notify { c with in_silence := false, silence_remaining := 0 }
      EventType.silence_ended
    match c1.mode with
    | PlayMode.AUTO => c1.play_auto_mode now
    | PlayMode.MANUAL => c1.play_manual_mode now

/-- `CoreController.update_silence` (cooperative tick). -/
def update_silence (c : Controller) (now : ℚ) : Bool × Controller :=
  if ¬c.in_silence then (false, c)
  else
    let elapsed := now - (c.silence_start_time.getD 0)
    let remaining := max 0 (c.silence_duration - elapsed)
    let c1 := { c with silence_remaining := remaining }
    if remaining ≤ 0 then
      (true, notify { c1 with in_silence := false } EventType.silence_ended)
    else (false, c1)

/-- `CoreController.process_pending_ops`: pop the head of the queue and
re-issue it with `source = "remote"` (which runs it through the priority
arbiter again). -/
def process_pending_ops (c : Controller) (now : ℚ) : Controller :=
  match c.pending_remote_ops with
  | [] => c
  | op :: rest =>
    let c1 := { c with pending_remote_ops := rest }
    if op.op = "play" then (c1.play "remote" now).2
    else if op.op = "pause" then (c1.pause "remote" now).2
    else if op.op = "resume" then (c1.resume "remote" now).2
    else if op.op = "stop" then (c1.stop "remote" now).2
    else if op.op = "next_cue" then (c1.next_cue "remote" now).2
    else if op.op = "seek" then
      (c1.seek (op.position.getD 0) "remote" now).2
    else if op.op = "replay" then (c1.replay "remote" now).2
    else c1

/-- `CoreController.set_local_priority`. -/
def set_local_priority (c : Controller) (enabled : Bool) : Controller :=
  { c with local_priority := enabled }

end Controller

/-! ### Concrete fixtures used by witnesses and counterexamples -/

/-- A BGM track with id `"a"`. -/
def trackA : AudioTrack := ⟨"a", "a.mp3", 10, "Track A", "bgm"⟩

/-- A BGM track with id `"b"`. -/
def trackB : AudioTrack := ⟨"b", "b.mp3", 20, "Track B", "bgm"⟩

/-- A cue referencing audio `"a"` with no silence padding. -/
def cueA : Cue := ⟨"cue-a", "a", 0, none, 0, 0, 1, "A"⟩

/-- A cue referencing audio `"b"`. -/
def cueB : Cue := ⟨"cue-b", "b", 5, none, 0, 0, 1, "B"⟩

/-- A catalog holding `cueA` and `trackA`. -/
def cmA : CueManager := ⟨[cueA], [trackA], 0, false⟩

/-- A breakpoint store with one breakpoint for `"a"` and one for `"b"`. -/
def bmAB : BreakpointManager :=
  ⟨[("a", [⟨"bp-0", "a", 3, "", "t-0", false⟩]),
    ("b", [⟨"bp-1", "b", 4, "", "t-1", false⟩])], 2⟩

/-- A stopped controller in AUTO mode over `cmA`, with `local_priority`
enabled and audio `"a"` still current (as after `stop`, which does not clear
`current_audio_id`). -/
def ctrlStopped : Controller :=
  { Controller.init with cue_manager := cmA, current_audio_id := some "a" }

/-- A controller actively playing audio `"a"` (as after `play` at `now = 0`). -/
def ctrlPlaying : Controller :=
  { Controller.init with
      cue_manager := { cmA with is_playing := true },
      engine := AudioEngine.init.play_bgm trackA 0,
      is_playing := true, current_audio_id := some "a",
      playback_start_time := some 0 }

/-! ### C1 — `remove_audio_file` and referencing cues -/

/-- Helper: the loop of `remove_audio_file` finds a track iff one has the id. -/
theorem removeAudioLoop_found (l : List AudioTrack) (audio_id : String) :
    (CueManager.removeAudioLoop l audio_id).1 = true ↔
      ∃ a ∈ l, a.id = audio_id := by
  induction l with
  | nil => simp [CueManager.removeAudioLoop]
  | cons a rest ih =>
    by_cases h : a.id = audio_id <;>
      simp [CueManager.removeAudioLoop, h, ih]

/-- Helper: when the loop finds nothing, the list is returned unchanged. -/
theorem removeAudioLoop_not_found (l : List AudioTrack) (audio_id : String)
    (h : (CueManager.removeAudioLoop l audio_id).1 = false) :
    (CueManager.removeAudioLoop l audio_id).2 = l := by
  induction l with
  | nil => simp [CueManager.removeAudioLoop]
  | cons a rest ih =>
    by_cases ha : a.id = audio_id
    · simp [CueManager.removeAudioLoop, ha] at h
    · simp [CueManager.removeAudioLoop, ha] at h ⊢
      exact ih h

/-- C1 counterexample: in `cmA` the cue `cue-a` references audio `"a"`, yet
`remove_audio_file "a"` returns `true` and removes the track — the source
performs no reference check, so the claimed refusal does not happen. -/
theorem c1_remove_referenced_audio_not_refused :
    (∃ cue ∈ cmA.cue_list, cue.audio_id = "a") ∧
    (cmA.remove_audio_file "a").1 = true ∧
    (cmA.remove_audio_file "a").2.audio_files = [] := by
  refine ⟨⟨cueA, by simp [cmA], rfl⟩, rfl, rfl⟩

/-- C1 amended: `remove_audio_file` performs no cue-reference check — it
removes the first audio file with the given id and returns `true` whenever
such a track exists (even when cues reference it), always leaving the cue
list and current index unchanged; it returns `false` with the catalog
unchanged only when no track has that id. -/
theorem c1_remove_audio_file_spec (m : CueManager) (audio_id : String) :
    (m.remove_audio_file audio_id).2.cue_list = m.cue_list ∧
    (m.remove_audio_file audio_id).2.current_index = m.current_index ∧
    ((m.remove_audio_file audio_id).1 = true ↔
      ∃ a ∈ m.audio_files, a.id = audio_id) ∧
    ((m.remove_audio_file audio_id).1 = false →
      (m.remove_audio_file audio_id).2 = m) := by
  refine ⟨rfl, rfl, removeAudioLoop_found _ _, fun h => ?_⟩
  have h2 := removeAudioLoop_not_found m.audio_files audio_id h
  simp [CueManager.remove_audio_file] at h ⊢
  simp [h2]

/-- C1 witness: evaluating the amended statement on `cmA`. -/
theorem c1_remove_audio_file_spec_witness :
    (cmA.remove_audio_file "a").1 = true ↔ ∃ a ∈ cmA.audio_files, a.id = "a" :=
  (c1_remove_audio_file_spec cmA "a").2.2.1

/-! ### C6 — `advance` and `next_cue` at the end of the list -/

/-- C6: `advance` increments the index by one and returns the cue at the new
index when not at the last cue; at the last cue (or on an empty list) it
returns `none` with everything unchanged; and in AUTO mode `next_cue` at the
last cue returns `false` leaving the cue index unchanged. -/
theorem c6_advance_next_cue (m : CueManager) (c : Controller) (now : ℚ)
    (hmode : c.mode = PlayMode.AUTO)
    (hlast : ¬(c.cue_manager.current_index + 1 < c.cue_manager.cue_list.length)) :
    (m.current_index + 1 < m.cue_list.length →
      ((m.advance.2.current_index = m.current_index + 1) ∧
       m.advance.1 = m.cue_list.get? (m.current_index + 1) ∧
       (m.advance.1).isSome = true)) ∧
    (¬(m.current_index + 1 < m.cue_list.length) → m.advance = (none, m)) ∧
    (c.next_cue "local" now).1 = false ∧
    (c.next_cue "local" now).2.cue_manager.current_index =
      c.cue_manager.current_index := by
  refine ⟨fun h => ?_, fun h => by simp [CueManager.advance, h], ?_⟩
  · have hne : m.cue_list ≠ [] := by
      intro he
      rw [he] at h
      simp at h
    have hle : ¬ (m.cue_list.length ≤ m.current_index + 1) := by omega
    refine ⟨by simp [CueManager.advance, h], ?_, ?_⟩
    · simp [CueManager.advance, h, CueManager.get_current_cue, hne, hle]
    · simp only [CueManager.advance, if_pos h, CueManager.get_current_cue]
      simp [hne, hle, List.get?_eq_getElem?, List.getElem?_eq_getElem h]
  · have hadv : c.cue_manager.advance = (none, c.cue_manager) := by
      simp [CueManager.advance, hlast]
    simp only [Controller.next_cue, Controller.check_priority]
    simp only [hmode]
    by_cases hs : c.in_silence <;> simp [hs, hadv]

/-- C6 witness: `ctrlStopped` sits at the last (only) cue of its list in
AUTO mode, and `next_cue` returns `false` there. -/
theorem c6_advance_next_cue_witness :
    (ctrlStopped.next_cue "local" 0).1 = false ∧
    (ctrlStopped.next_cue "local" 0).2.cue_manager.current_index =
      ctrlStopped.cue_manager.current_index :=
  (c6_advance_next_cue cmA ctrlStopped 0 rfl (by decide)).2.2

/-! ### C7 — volume clamp and exact round trip on `[0, 1]` -/

/-- C7: after `set_bgm_volume v` / `set_sfx_volume v` the matching getter
returns `v` clamped to `[0, 3]`; in particular it returns exactly `v` for
`v ∈ [0, 1]`. -/
theorem c7_volume_clamp (c : Controller) (v : ℚ) :
    (c.set_bgm_volume v).get_bgm_volume = max 0 (min 3 v) ∧
    (c.set_sfx_volume v).get_sfx_volume = max 0 (min 3 v) ∧
    (0 ≤ v → v ≤ 1 →
      (c.set_bgm_volume v).get_bgm_volume = v ∧
      (c.set_sfx_volume v).get_sfx_volume = v) := by
  refine ⟨rfl, rfl, fun h0 h1 => ?_⟩
  have hmin : min 3 v = v := min_eq_right (by linarith)
  have hmax : max 0 v = v := max_eq_right h0
  constructor <;>
    simp [Controller.set_bgm_volume, Controller.set_sfx_volume,
          Controller.get_bgm_volume, Controller.get_sfx_volume,
          Controller.notify, hmin, hmax]

/-- C7 witness: setting volume `3/4` on the initial controller reads back
exactly `3/4`. -/
theorem c7_volume_clamp_witness :
    (Controller.init.set_bgm_volume (3/4)).get_bgm_volume = 3/4 ∧
    (Controller.init.set_sfx_volume (3/4)).get_sfx_volume = 3/4 :=
  (c7_volume_clamp Controller.init (3/4)).2.2 (by norm_num) (by norm_num)

/-! ### C9 — `CueListConfig` serialization round trip -/

/-- Helper: a cue deserializes back from its own dictionary. -/
theorem cue_from_to_dict (c : Cue) : Cue.from_dict c.to_dict = some c := by
  rcases c with ⟨id, audio_id, st, et, sb, sa, vol, lab⟩
  cases et <;> rfl

/-- Helper: an audio track deserializes back from its own dictionary. -/
theorem audio_from_to_dict (a : AudioTrack) :
    AudioTrack.from_dict a.to_dict = some a := by
  rcases a with ⟨id, fp, dur, title, tt⟩
  rfl

/-- Helper: element-wise deserialization inverts element-wise serialization. -/
theorem fromDictList_map {α : Type} (toD : α → JVal) (fromD : JVal → Option α)
    (hinv : ∀ x, fromD (toD x) = some x) (l : List α) :
    fromDictList fromD (l.map toD) = some l := by
  induction l with
  | nil => rfl
  | cons x xs ih => simp [fromDictList, hinv, ih]

/-- C9: deserializing the JSON serialization of any `CueListConfig` returns
a config equal to the original on every field, cue order preserved. -/
theorem c9_cue_config_roundtrip (cfg : CueListConfig) :
    CueListConfig.from_dict cfg.to_dict = some cfg := by
  rcases cfg with ⟨version, name, created_at, cues, audio_files⟩
  simp [CueListConfig.from_dict, CueListConfig.to_dict, JVal.getField,
        List.lookup, JVal.asStr, JVal.asArr,
        fromDictList_map Cue.to_dict Cue.from_dict cue_from_to_dict,
        fromDictList_map AudioTrack.to_dict AudioTrack.from_dict
          audio_from_to_dict]

/-! ### C10 — `toggle_sfx` reports playing even when no slot was free -/

/-- An engine whose eight SFX channels are all busy while no sfx id is
registered. -/
def engineFull : AudioEngine :=
  { AudioEngine.init with sfx_busy := List.replicate 8 true }

/-- A controller over the exhausted engine. -/
def ctrlFull : Controller := { Controller.init with engine := engineFull }

/-- C10: whenever `toggle_sfx` is called on an sfx id that is not playing it
returns `true` unconditionally; in particular, when the id is unregistered
and no SFX channel is free, the underlying `play_sfx` fails and the id is
still not playing afterwards — the returned value misreports. -/
theorem c10_toggle_sfx_ignores_play_failure (c : Controller) (sfx_id : String)
    (track : AudioTrack) (h : c.engine.is_sfx_playing sfx_id = false) :
    (c.toggle_sfx sfx_id track).1 = true ∧
    (c.engine.playing_sfx.lookup sfx_id = none →
     c.engine.find_free_sfx_channel = none →
     ((c.toggle_sfx sfx_id track).2).engine.is_sfx_playing sfx_id = false) := by
  constructor
  · simp [Controller.toggle_sfx, h]
  · intro h1 h2
    simp [Controller.toggle_sfx, h, Controller.notify,
          AudioEngine.play_sfx, h1, h2]

/-- C10 witness: with all eight channels busy, toggling the unregistered sfx
`"s"` returns `true` while `"s"` is still not playing afterwards. -/
theorem c10_toggle_sfx_ignores_play_failure_witness :
    (ctrlFull.toggle_sfx "s" trackA).1 = true ∧
    ((ctrlFull.toggle_sfx "s" trackA).2).engine.is_sfx_playing "s" = false :=
  ⟨(c10_toggle_sfx_ignores_play_failure ctrlFull "s" trackA (by decide)).1,
   (c10_toggle_sfx_ignores_play_failure ctrlFull "s" trackA (by decide)).2
     rfl (by decide)⟩

/-! ### C8 — per-audio independence of the breakpoint store -/

/-- Helper: updating one key of the association list leaves every other
key's binding unchanged. -/
theorem lookup_assocSet_ne {α : Type} (l : List (String × α)) (k k' : String)
    (v : α) (h : k' ≠ k) : (assocSet l k v).lookup k' = l.lookup k' := by
  have hbeq : (k' == k) = false := beq_eq_false_iff_ne.mpr h
  induction l with
  | nil => simp [assocSet, List.lookup, hbeq]
  | cons e rest ih =>
    rcases e with ⟨ek, ev⟩
    by_cases he : ek = k
    · subst he
      simp [assocSet, List.lookup, hbeq]
    · by_cases hk : k' = ek
      · subst hk
        simp [assocSet, he, List.lookup]
      · have hbek : (k' == ek) = false := beq_eq_false_iff_ne.mpr hk
        simp [assocSet, he, List.lookup, hbek, ih]

/-- Helper: looking up after mapping a function over the values. -/
theorem lookup_map_snd {α β : Type} (l : List (String × α)) (k : String)
    (f : α → β) :
    (l.map (fun e => (e.1, f e.2))).lookup k = (l.lookup k).map f := by
  induction l with
  | nil => simp
  | cons e rest ih =>
    rcases e with ⟨ek, ev⟩
    by_cases hk : k = ek
    · subst hk
      simp [List.lookup]
    · have hbek : (k == ek) = false := beq_eq_false_iff_ne.mpr hk
      simp [List.lookup, hbek, ih]

/-- C8: every breakpoint-store mutation applied to audio `A` — `save`,
`delete`, `clear_audio`, or `clear_selected` on ids drawn from `A`'s
breakpoints (whose ids do not collide with `B`'s, as store ids are globally
unique) — leaves audio `B`'s breakpoint list unchanged. -/
theorem c8_breakpoint_frame (m : BreakpointManager) (A B : String) (p : ℚ)
    (lab : String) (auto : Bool) (bp_id : String) (ids : List String)
    (hAB : B ≠ A) :
    (m.save_breakpoint A p lab auto).2.get_breakpoints B =
      m.get_breakpoints B ∧
    (m.delete_breakpoint A bp_id).2.get_breakpoints B =
      m.get_breakpoints B ∧
    (m.clear_audio_breakpoints A).get_breakpoints B = m.get_breakpoints B ∧
    ((∀ i ∈ ids, ∃ bp ∈ m.get_breakpoints A, bp.id = i) →
     (∀ bp ∈ m.get_breakpoints B, ∀ bp' ∈ m.get_breakpoints A,
        bp.id ≠ bp'.id) →
     (m.clear_selected ids).2.get_breakpoints B = m.get_breakpoints B) := by
  refine ⟨?_, ?_, ?_, ?_⟩
  · simp [BreakpointManager.save_breakpoint, BreakpointManager.get_breakpoints,
          lookup_assocSet_ne _ _ _ _ hAB]
  · unfold BreakpointManager.delete_breakpoint
    cases hl : m.breakpoints.lookup A with
    | none => rfl
    | some l =>
      simp [BreakpointManager.get_breakpoints,
            lookup_assocSet_ne _ _ _ _ hAB]
  · unfold BreakpointManager.clear_audio_breakpoints
    cases hl : m.breakpoints.lookup A with
    | none => rfl
    | some l =>
      simp [BreakpointManager.get_breakpoints,
            lookup_assocSet_ne _ _ _ _ hAB]
  · intro hids hdisj
    unfold BreakpointManager.clear_selected
    simp only [BreakpointManager.get_breakpoints, lookup_map_snd]
    cases hB : m.breakpoints.lookup B with
    | none => rfl
    | some lB =>
      simp only [Option.map_some, Option.getD_some]
      have : ∀ bp ∈ lB, (decide (bp.id ∉ ids)) = true := by
        intro bp hbp
        simp only [decide_eq_true_eq]
        intro hin
        obtain ⟨bp', hbp', hid⟩ := hids bp.id hin
        exact hdisj bp (by simp [BreakpointManager.get_breakpoints, hB, hbp])
          bp' hbp' hid.symm
      exact List.filter_eq_self.mpr this

/-- C8 witness: mutating `"a"`'s breakpoints in `bmAB` leaves `"b"`'s list
untouched. -/
theorem c8_breakpoint_frame_witness :
    (bmAB.save_breakpoint "a" 7 "" true).2.get_breakpoints "b" =
      bmAB.get_breakpoints "b" ∧
    (bmAB.clear_selected ["bp-0"]).2.get_breakpoints "b" =
      bmAB.get_breakpoints "b" := by
  have h := c8_breakpoint_frame bmAB "a" "b" 7 "" true "bp-0" ["bp-0"]
    (by decide)
  exact ⟨h.1, h.2.2.2 (by decide) (by decide)⟩

/-! ### C5 — the current-index invariant under catalog mutations -/

/-- The index invariant in arithmetic form. -/
def IndexInvNum (m : CueManager) : Prop :=
  (m.cue_list.length = 0 → m.current_index = 0) ∧
  (0 < m.cue_list.length → m.current_index < m.cue_list.length)

/-- The two forms of the index invariant agree. -/
theorem indexInv_iff_num (m : CueManager) : m.IndexInv ↔ IndexInvNum m := by
  unfold CueManager.IndexInv IndexInvNum
  by_cases he : m.cue_list = []
  · rw [if_pos he, he]
    simp
  · have hlen : m.cue_list.length ≠ 0 := by
      intro h0
      exact he (List.eq_nil_of_length_eq_zero h0)
    rw [if_neg he]
    constructor
    · intro h
      exact ⟨fun h0 => absurd h0 hlen, fun _ => h⟩
    · intro h
      exact h.2 (Nat.pos_of_ne_zero hlen)

/-- Helper: `add_cue` preserves the index invariant. -/
theorem indexInv_add_cue (m : CueManager) (cue : Cue) (h : m.IndexInv) :
    (m.add_cue cue).IndexInv := by
  rw [indexInv_iff_num] at h ⊢
  unfold CueManager.add_cue
  unfold IndexInvNum at h ⊢
  dsimp only
  simp only [List.length_append, List.length_cons, List.length_nil]
  omega

/-- Helper: `insert_cue` into a non-empty list preserves the index
invariant. -/
theorem indexInv_insert_cue (m : CueManager) (index : ℕ) (cue : Cue)
    (hne : m.cue_list ≠ []) (h : m.IndexInv) :
    ((m.insert_cue index cue).2).IndexInv := by
  rw [indexInv_iff_num] at h ⊢
  unfold CueManager.insert_cue
  by_cases hle : index ≤ m.cue_list.length
  · rw [if_pos hle]
    have hlen : (m.cue_list.insertIdx index cue).length =
        m.cue_list.length + 1 := List.length_insertIdx index _ hle
    have hlne : m.cue_list.length ≠ 0 := by
      intro h0
      exact hne (List.eq_nil_of_length_eq_zero h0)
    unfold IndexInvNum at h ⊢
    dsimp only
    split_ifs <;> omega
  · rw [if_neg hle]
    exact h

/-- Helper: `remove_cue` preserves the index invariant. -/
theorem indexInv_remove_cue (m : CueManager) (cue_id : String)
    (h : m.IndexInv) : ((m.remove_cue cue_id).2).IndexInv := by
  rw [indexInv_iff_num] at h ⊢
  unfold CueManager.remove_cue
  cases hf : m.cue_list.findIdx? (fun c => c.id = cue_id) with
  | none => exact h
  | some i =>
    have hi : i < m.cue_list.length :=
      (List.findIdx?_eq_some_iff_findIdx_eq.mp hf).1
    have hlen : (m.cue_list.eraseIdx i).length = m.cue_list.length - 1 := by
      rw [List.length_eraseIdx]
      simp [hi]
    unfold IndexInvNum at h ⊢
    dsimp only
    split_ifs <;> omega

/-- Helper: `move_cue` preserves the index invariant. -/
theorem indexInv_move_cue (m : CueManager) (src dst : ℕ) (h : m.IndexInv) :
    ((m.move_cue src dst).2).IndexInv := by
  rw [indexInv_iff_num] at h ⊢
  unfold CueManager.move_cue
  by_cases hft : src < m.cue_list.length ∧ dst < m.cue_list.length
  · rw [if_pos hft]
    obtain ⟨hf, ht⟩ := hft
    cases hg : m.cue_list.get? src with
    | none => exact h
    | some cue =>
      have hle : (m.cue_list.eraseIdx src).length = m.cue_list.length - 1 := by
        rw [List.length_eraseIdx]
        simp [hf]
      have ht' : dst ≤ (m.cue_list.eraseIdx src).length := by omega
      have hli : ((m.cue_list.eraseIdx src).insertIdx dst cue).length =
          (m.cue_list.eraseIdx src).length + 1 :=
        List.length_insertIdx dst _ ht'
      unfold IndexInvNum at h ⊢
      dsimp only
      split_ifs <;> omega
  · rw [if_neg hft]
    exact h

/-- Helper: `clear_cues` re-establishes the index invariant. -/
theorem indexInv_clear_cues (m : CueManager) : (m.clear_cues).IndexInv := by
  unfold CueManager.clear_cues CueManager.IndexInv
  simp

/-- Helper: `advance` preserves the index invariant. -/
theorem indexInv_advance (m : CueManager) (h : m.IndexInv) :
    (m.advance.2).IndexInv := by
  rw [indexInv_iff_num] at h ⊢
  unfold CueManager.advance
  by_cases hlt : m.current_index + 1 < m.cue_list.length
  · rw [if_pos hlt]
    unfold IndexInvNum at h ⊢
    dsimp only
    omega
  · rw [if_neg hlt]
    exact h

/-- Helper: `set_index` preserves the index invariant. -/
theorem indexInv_set_index (m : CueManager) (index : ℕ) (h : m.IndexInv) :
    ((m.set_index index).2).IndexInv := by
  rw [indexInv_iff_num] at h ⊢
  unfold CueManager.set_index
  by_cases hlt : index < m.cue_list.length
  · rw [if_pos hlt]
    unfold IndexInvNum at h ⊢
    dsimp only
    omega
  · rw [if_neg hlt]
    exact h

/-- C5 counterexample: the invariant holds for the empty catalog, yet
`insert_cue 0` into the empty list succeeds and leaves
`current_index = 1 = |cues|`, out of range — the post-insertion emptiness
test in the source bumps the index even for the first cue. -/
theorem c5_insert_into_empty_breaks_invariant :
    CueManager.init.IndexInv ∧
    (CueManager.init.insert_cue 0 cueA).1 = true ∧
    (CueManager.init.insert_cue 0 cueA).2.current_index = 1 ∧
    (CueManager.init.insert_cue 0 cueA).2.cue_list.length = 1 ∧
    ¬ (CueManager.init.insert_cue 0 cueA).2.IndexInv := by decide

/-- C5 amended: the invariant `current_index ∈ [0, |cues|)` for non-empty
catalogs (`= 0` when empty) is preserved by `add_cue`, `remove_cue`,
`move_cue`, `clear_cues`, `advance`, `set_index`, and by `insert_cue`
whenever the list is non-empty; inserting into an *empty* list instead sets
`current_index` to `1 = |cues|`, breaking it. -/
theorem c5_index_invariant_preservation (m : CueManager) (cue : Cue)
    (cue_id : String) (index src dst : ℕ) (h : m.IndexInv) :
    (m.add_cue cue).IndexInv ∧
    (m.cue_list ≠ [] → ((m.insert_cue index cue).2).IndexInv) ∧
    ((m.remove_cue cue_id).2).IndexInv ∧
    ((m.move_cue src dst).2).IndexInv ∧
    (m.clear_cues).IndexInv ∧
    (m.advance.2).IndexInv ∧
    ((m.set_index index).2).IndexInv ∧
    (m.cue_list = [] → (m.insert_cue 0 cue).2.current_index = 1) := by
  refine ⟨indexInv_add_cue m cue h,
          fun hne => indexInv_insert_cue m index cue hne h,
          indexInv_remove_cue m cue_id h,
          indexInv_move_cue m src dst h,
          indexInv_clear_cues m,
          indexInv_advance m h,
          indexInv_set_index m index h,
          fun he => ?_⟩
  unfold CueManager.IndexInv at h
  rw [if_pos he] at h
  unfold CueManager.insert_cue
  rw [he]
  simp [List.insertIdx, h]

/-- C5 witness: evaluating the amended statement on the one-cue catalog
`cmA`. -/
theorem c5_index_invariant_preservation_witness :
    ((cmA.remove_cue "cue-a").2).IndexInv ∧
    ((cmA.insert_cue 0 cueB).2).IndexInv := by
  have h := c5_index_invariant_preservation cmA cueB "cue-a" 0 0 0 (by decide)
  exact ⟨h.2.2.1, h.2.1 (by decide)⟩

/-! ### C3 — the invariant `is_paused ⇒ is_playing` -/

/-- Spec invariant 1: being paused implies a play session exists. -/
def PausedInv (c : Controller) : Prop :=
  c.is_paused = true → c.is_playing = true

instance (c : Controller) : Decidable (PausedInv c) := by
  unfold PausedInv
  infer_instance

/-- Helper: `pause` preserves the paused invariant. -/
theorem pausedInv_pause (c : Controller) (source : String) (now : ℚ)
    (h : PausedInv c) : PausedInv (c.pause source now).2 := by
  unfold Controller.pause
  dsimp only
  split
  · exact h
  · split
    · exact h
    · rename_i hpri hplay
      rw [not_or] at hplay
      obtain ⟨hp, _⟩ := hplay
      rw [Bool.not_eq_true, Bool.not_eq_false] at hp
      split <;> exact fun _ => hp

/-- Helper: `play_auto_mode` preserves the paused invariant. -/
theorem pausedInv_play_auto_mode (c : Controller) (now : ℚ)
    (h : PausedInv c) : PausedInv (c.play_auto_mode now).2 := by
  unfold Controller.play_auto_mode
  dsimp only
  split
  · exact h
  · split
    · exact h
    · split
      · exact h
      · exact fun _ => rfl

/-- Helper: `play_manual_mode` preserves the paused invariant. -/
theorem pausedInv_play_manual_mode (c : Controller) (now : ℚ)
    (h : PausedInv c) : PausedInv (c.play_manual_mode now).2 := by
  unfold Controller.play_manual_mode
  dsimp only
  split
  · exact h
  · split
    · exact h
    · exact fun _ => rfl

/-- Helper: `play` preserves the paused invariant. -/
theorem pausedInv_play (c : Controller) (source : String) (now : ℚ)
    (h : PausedInv c) : PausedInv (c.play source now).2 := by
  unfold Controller.play
  split
  · exact h
  · split
    · exact pausedInv_play_auto_mode _ _ h
    · exact pausedInv_play_manual_mode _ _ h

/-- Helper: `resume` preserves the paused invariant. -/
theorem pausedInv_resume (c : Controller) (source : String) (now : ℚ)
    (h : PausedInv c) : PausedInv (c.resume source now).2 := by
  unfold Controller.resume
  dsimp only
  split
  · exact h
  · split
    · exact h
    · split
      · exact h
      · exact fun _ => rfl

/-- Helper: `stop` preserves the paused invariant. -/
theorem pausedInv_stop (c : Controller) (source : String) (now : ℚ)
    (h : PausedInv c) : PausedInv (c.stop source now).2 := by
  unfold Controller.stop
  dsimp only
  split
  · exact h
  · split <;> exact fun h' => by simp [Controller.notify] at h'

/-- Helper: `seek` leaves `is_playing` untouched, so it preserves the paused
invariant whenever the controller is actually playing. -/
theorem pausedInv_seek_of_playing (c : Controller) (p : ℚ) (source : String)
    (now : ℚ) (hpl : c.is_playing = true) :
    PausedInv (c.seek p source now).2 := by
  unfold Controller.seek
  dsimp only
  repeat' split
  all_goals exact fun _ => hpl

/-- Helper: `next_cue` preserves the paused invariant. -/
theorem pausedInv_next_cue (c : Controller) (source : String) (now : ℚ)
    (h : PausedInv c) : PausedInv (c.next_cue source now).2 := by
  unfold Controller.next_cue
  dsimp only
  split
  · exact h
  · split
    · exact h
    · by_cases hs : c.in_silence = true
      · rw [if_pos hs]
        repeat' split
        · exact fun h' => by simp [Controller.notify] at h'
        · exact pausedInv_play_auto_mode _ _ h
      · rw [if_neg hs]
        repeat' split
        · exact fun h' => by simp [Controller.notify] at h'
        · exact pausedInv_play_auto_mode _ _ h

/-- Helper: `replay` preserves the paused invariant. -/
theorem pausedInv_replay (c : Controller) (source : String) (now : ℚ)
    (h : PausedInv c) : PausedInv (c.replay source now).2 := by
  unfold Controller.replay
  dsimp only
  repeat' split
  all_goals first
    | exact h
    | exact fun _ => rfl

/-- Helper: `switch_mode` leaves both flags untouched. -/
theorem pausedInv_switch_mode (c : Controller) (mode : PlayMode) (now : ℚ)
    (h : PausedInv c) : PausedInv (c.switch_mode mode now).2 := by
  unfold Controller.switch_mode
  dsimp only
  repeat' split
  all_goals exact h

/-- Helper: `play_new_bgm` always ends playing. -/
theorem pausedInv_play_new_bgm (c : Controller) (audio : AudioTrack)
    (start_pos now : ℚ) : PausedInv (c.play_new_bgm audio start_pos now).2 := by
  unfold Controller.play_new_bgm
  dsimp only
  repeat' split
  all_goals exact fun _ => rfl

/-- Helper: `restore_breakpoint` preserves the paused invariant. -/
theorem pausedInv_restore_breakpoint (c : Controller) (aid bid : String)
    (now : ℚ) (h : PausedInv c) :
    PausedInv (c.restore_breakpoint aid bid now).2 := by
  unfold Controller.restore_breakpoint
  dsimp only
  repeat' split
  all_goals first
    | exact h
    | exact fun _ => rfl

/-- Helper: `skip_silence` preserves the paused invariant. -/
theorem pausedInv_skip_silence (c : Controller) (now : ℚ)
    (h : PausedInv c) : PausedInv (c.skip_silence now).2 := by
  unfold Controller.skip_silence
  dsimp only
  split
  · exact h
  · split
    · exact pausedInv_play_auto_mode _ _ h
    · exact pausedInv_play_manual_mode _ _ h

/-- C3 counterexample: the stopped controller `ctrlStopped` satisfies the
invariant, yet `seek 5` succeeds there (it has a current audio) and leaves
`is_paused = true` with `is_playing = false` — the re-pause branch of `seek`
sets `is_paused` without a play session. -/
theorem c3_seek_while_stopped_breaks_invariant :
    PausedInv ctrlStopped ∧
    (ctrlStopped.seek 5 "local" 0).1 = true ∧
    (ctrlStopped.seek 5 "local" 0).2.is_paused = true ∧
    (ctrlStopped.seek 5 "local" 0).2.is_playing = false := by decide

/-- C3 amended: `is_paused ⇒ is_playing` holds initially and is preserved by
`play`, `pause`, `resume`, `stop`, `next_cue`, `replay`, `switch_mode`,
`play_new_bgm`, `restore_breakpoint`, `skip_silence`, and by `seek` whenever
the controller is playing (in particular while paused); `seek` invoked while
*stopped* with a current audio instead re-pauses without a play session,
leaving `is_paused ∧ ¬is_playing`. -/
theorem c3_paused_invariant_preservation (c : Controller)
    (source aid bid : String) (now p start_pos : ℚ) (mode : PlayMode)
    (audio : AudioTrack) (h : PausedInv c) :
    PausedInv Controller.init ∧
    PausedInv (c.play source now).2 ∧
    PausedInv (c.pause source now).2 ∧
    PausedInv (c.resume source now).2 ∧
    PausedInv (c.stop source now).2 ∧
    (c.is_playing = true → PausedInv (c.seek p source now).2) ∧
    PausedInv (c.next_cue source now).2 ∧
    PausedInv (c.replay source now).2 ∧
    PausedInv (c.switch_mode mode now).2 ∧
    PausedInv (c.play_new_bgm audio start_pos now).2 ∧
    PausedInv (c.restore_breakpoint aid bid now).2 ∧
    PausedInv (c.skip_silence now).2 :=
  ⟨by decide,
   pausedInv_play c source now h,
   pausedInv_pause c source now h,
   pausedInv_resume c source now h,
   pausedInv_stop c source now h,
   fun hpl => pausedInv_seek_of_playing c p source now hpl,
   pausedInv_next_cue c source now h,
   pausedInv_replay c source now h,
   pausedInv_switch_mode c mode now h,
   pausedInv_play_new_bgm c audio start_pos now,
   pausedInv_restore_breakpoint c aid bid now h,
   pausedInv_skip_silence c now h⟩

/-- C3 witness: the invariant is preserved when the playing controller
`ctrlPlaying` pauses and when it seeks. -/
theorem c3_paused_invariant_preservation_witness :
    PausedInv (ctrlPlaying.pause "local" 1).2 ∧
    PausedInv (ctrlPlaying.seek 5 "local" 1).2 := by
  have h := c3_paused_invariant_preservation ctrlPlaying "local" "a" "bp-0"
    1 5 0 PlayMode.MANUAL trackB (by decide)
  exact ⟨h.2.2.1, h.2.2.2.2.2.1 (by decide)⟩

/-! ### C4 — auto-breakpoints on BGM-change transitions -/

/-- Helper: updating a key makes it the key's binding. -/
theorem lookup_assocSet_self {α : Type} (l : List (String × α)) (k : String)
    (v : α) : (assocSet l k v).lookup k = some v := by
  induction l with
  | nil => simp [assocSet, List.lookup]
  | cons e rest ih =>
    rcases e with ⟨ek, ev⟩
    by_cases he : ek = k
    · subst he
      simp [assocSet, List.lookup]
    · have hb : (k == ek) = false :=
        beq_eq_false_iff_ne.mpr (fun hk => he hk.symm)
      simp [assocSet, he, List.lookup, hb, ih]

/-- Helper: `save_breakpoint` appends exactly one breakpoint (the fresh one)
to the audio's list. -/
theorem get_breakpoints_save (m : BreakpointManager) (aid : String) (p : ℚ)
    (lab : String) (auto : Bool) :
    (m.save_breakpoint aid p lab auto).2.get_breakpoints aid =
      m.get_breakpoints aid ++
        [⟨"bp-" ++ toString m.next_id, aid, p, lab,
          "t-" ++ toString m.next_id, auto⟩] := by
  unfold BreakpointManager.save_breakpoint
  conv_lhs => unfold BreakpointManager.get_breakpoints
  dsimp only
  rw [lookup_assocSet_self]
  rfl

/-- C4 counterexample: `ctrlPlaying` is actively playing audio `"a"`, and
`play_new_bgm` with the *same* track `trackA` still grows `"a"`'s breakpoint
list by one auto-saved entry — the source saves whenever it is playing,
without comparing the incoming audio id. -/
theorem c4_same_audio_still_saves_breakpoint :
    ctrlPlaying.current_audio_id = some trackA.id ∧
    ctrlPlaying.is_playing = true ∧ ctrlPlaying.is_paused = false ∧
    (ctrlPlaying.breakpoint_manager.get_breakpoints "a").length = 0 ∧
    ((ctrlPlaying.play_new_bgm trackA 0
        3).2.breakpoint_manager.get_breakpoints "a").length = 1 ∧
    ((ctrlPlaying.play_new_bgm trackA 0
        3).2.breakpoint_manager.get_breakpoints "a").head?.map
        Breakpoint.auto_saved = some true := by decide

/-- C4 amended: while actively playing (`is_playing ∧ ¬is_paused`) with a
current audio id, `play_new_bgm` stores exactly one `auto_saved` breakpoint
at the current position for the outgoing audio — regardless of whether the
incoming track is a different audio or the same one; `restore_breakpoint`
(of an existing breakpoint on a known audio) does so whenever `is_playing`,
even when paused; and no auto-breakpoint is written when not playing. -/
theorem c4_auto_breakpoint_on_bgm_change (c : Controller) (audio : AudioTrack)
    (start_pos now : ℚ) (aid aid0 bid : String)
    (hca : c.current_audio_id = some aid)
    (hst : Controller.strTruthy c.current_audio_id = true) :
    (c.is_playing = true → c.is_paused = false →
      (c.play_new_bgm audio start_pos now).2.breakpoint_manager.get_breakpoints
          aid =
        c.breakpoint_manager.get_breakpoints aid ++
          [⟨"bp-" ++ toString c.breakpoint_manager.next_id, aid,
            c.position_at now, "自动保存",
            "t-" ++ toString c.breakpoint_manager.next_id, true⟩]) ∧
    (c.is_playing = false →
      (c.play_new_bgm audio start_pos now).2.breakpoint_manager =
        c.breakpoint_manager) ∧
    (c.is_playing = true → c.is_paused = true →
      (c.play_new_bgm audio start_pos now).2.breakpoint_manager =
        c.breakpoint_manager) ∧
    (∀ bp0 audio0, c.breakpoint_manager.get_breakpoint aid0 bid = some bp0 →
      c.cue_manager.get_audio_file aid0 = some audio0 →
      c.is_playing = true →
      (c.restore_breakpoint aid0 bid
          now).2.breakpoint_manager.get_breakpoints aid =
        c.breakpoint_manager.get_breakpoints aid ++
          [⟨"bp-" ++ toString c.breakpoint_manager.next_id, aid,
            c.position_at now, "",
            "t-" ++ toString c.breakpoint_manager.next_id, true⟩]) ∧
    (c.is_playing = false →
      (c.restore_breakpoint aid0 bid now).2.breakpoint_manager =
        c.breakpoint_manager) := by
  refine ⟨fun hp hpa => ?_, fun hp => ?_, fun hp hpa => ?_,
          fun bp0 audio0 hbp haud hp => ?_, fun hp => ?_⟩
  · unfold Controller.play_new_bgm
    dsimp only
    have hcond : c.is_playing = true ∧
        Controller.strTruthy c.current_audio_id = true ∧
        ¬c.is_paused = true := ⟨hp, hst, by simp [hpa]⟩
    rw [if_pos hcond]
    have hsave := get_breakpoints_save c.breakpoint_manager aid
      (c.position_at now) "自动保存" true
    rw [hca]
    split <;> simpa [Controller.notify] using hsave
  · unfold Controller.play_new_bgm
    dsimp only
    have hncond : ¬(c.is_playing = true ∧
        Controller.strTruthy c.current_audio_id = true ∧
        ¬c.is_paused = true) := fun hcond => by
      rw [hp] at hcond
      simp at hcond
    rw [if_neg hncond]
    split <;> rfl
  · unfold Controller.play_new_bgm
    dsimp only
    have hncond : ¬(c.is_playing = true ∧
        Controller.strTruthy c.current_audio_id = true ∧
        ¬c.is_paused = true) := fun hcond => by
      rw [hpa] at hcond
      simp at hcond
    rw [if_neg hncond]
    split <;> rfl
  · unfold Controller.restore_breakpoint
    rw [hbp, haud]
    dsimp only
    have hcond : c.is_playing = true ∧
        Controller.strTruthy c.current_audio_id = true := ⟨hp, hst⟩
    rw [if_pos hcond]
    have hsave := get_breakpoints_save c.breakpoint_manager aid
      (c.position_at now) "" true
    rw [hca]
    split <;> simpa [Controller.notify] using hsave
  · unfold Controller.restore_breakpoint
    cases c.breakpoint_manager.get_breakpoint aid0 bid with
    | none => rfl
    | some bp0 =>
      cases c.cue_manager.get_audio_file aid0 with
      | none => rfl
      | some audio0 =>
        dsimp only
        have hncond : ¬(c.is_playing = true ∧
            Controller.strTruthy c.current_audio_id = true) := fun hcond => by
          rw [hp] at hcond
          simp at hcond
        rw [if_neg hncond]
        split <;> rfl

/-- C4 witness: `play_new_bgm` to `trackB` from `ctrlPlaying` (playing
`"a"`) appends the auto breakpoint for `"a"`. -/
theorem c4_auto_breakpoint_on_bgm_change_witness :
    (ctrlPlaying.play_new_bgm trackB 0
        3).2.breakpoint_manager.get_breakpoints "a" =
      ctrlPlaying.breakpoint_manager.get_breakpoints "a" ++
        [⟨"bp-" ++ toString ctrlPlaying.breakpoint_manager.next_id, "a",
          ctrlPlaying.position_at 3, "自动保存",
          "t-" ++ toString ctrlPlaying.breakpoint_manager.next_id, true⟩] :=
  (c4_auto_breakpoint_on_bgm_change ctrlPlaying trackB 0 3 "a" "a" "bp-x"
    rfl (by decide)).1 rfl rfl

/-! ### C2 — remote `play` deferral and `process_pending_ops` -/

/-- C2 counterexample: with `local_priority` on and a playable cue,
remote `play` on the stopped controller is deferred (queued, state
unchanged); but one call to `process_pending_ops` does *not* execute it —
the popped op is re-issued through the same priority arbiter, deferred
again and re-queued, so the controller stays stopped and no event (in
particular no `playback_started`) is emitted. -/
theorem c2_process_pending_ops_defers_again :
    ctrlStopped.local_priority = true ∧
    ctrlStopped.is_playing = false ∧
    (ctrlStopped.play "remote" 0).1 = false ∧
    (ctrlStopped.play "remote" 0).2.is_playing = false ∧
    (ctrlStopped.play "remote" 0).2.pending_remote_ops.map PendingOp.op =
      ["play"] ∧
    ((ctrlStopped.play "remote" 0).2.process_pending_ops 1).is_playing =
      false ∧
    ((ctrlStopped.play "remote" 0).2.process_pending_ops
        1).pending_remote_ops.map PendingOp.op = ["play"] ∧
    ((ctrlStopped.play "remote" 0).2.process_pending_ops 1).events =
      ctrlStopped.events := by decide

/-- C2 amended: remote `play` while stopped under `local_priority` returns
`false` with the state unchanged apart from the queued op; a single
`process_pending_ops` call pops the op and re-issues it with
`source = "remote"`, which the still-enabled priority arbiter defers again —
the op is re-queued, the state stays stopped and no `playback_started` is
emitted.  Only once `local_priority` is disabled does `process_pending_ops`
execute the queued play, moving the controller to playing and emitting
`playback_started`. -/
theorem c2_remote_play_deferral (c : Controller) (cue : Cue)
    (audio : AudioTrack) (now now2 : ℚ)
    (hlp : c.local_priority = true)
    (hstop : c.is_playing = false) (hsil : c.in_silence = false)
    (hmode : c.mode = PlayMode.AUTO)
    (hcue : c.cue_manager.get_current_cue = some cue)
    (haud : c.cue_manager.get_audio_file cue.audio_id = some audio)
    (hsb : cue.silence_before = 0)
    (hpend : c.pending_remote_ops = []) :
    (c.play "remote" now).1 = false ∧
    (c.play "remote" now).2 =
      { c with pending_remote_ops := [⟨"play", "remote", none, now⟩] } ∧
    ((c.play "remote" now).2).process_pending_ops now2 =
      { c with pending_remote_ops := [⟨"play", "remote", none, now2⟩] } ∧
    (({ (c.play "remote" now).2 with
        local_priority := false }).process_pending_ops now2).is_playing =
      true ∧
    (({ (c.play "remote" now).2 with
        local_priority := false }).process_pending_ops now2).events =
      c.events ++ [EventType.playback_started, EventType.state_changed] := by
  have hchk : c.check_priority "remote" = false := by
    unfold Controller.check_priority
    rw [if_neg (by decide), hlp]
    rfl
  have h12 : c.play "remote" now =
      (false, { c with pending_remote_ops := [⟨"play", "remote", none, now⟩] }) := by
    unfold Controller.play
    rw [if_pos (by rw [hchk]; simp)]
    unfold Controller.queue_remote_op
    rw [hpend]
    rfl
  refine ⟨by rw [h12], by rw [h12], ?_, ?_, ?_⟩
  · rw [h12]
    unfold Controller.process_pending_ops
    dsimp only
    rw [if_pos rfl]
    unfold Controller.play
    unfold Controller.check_priority
    rw [if_neg (show ¬("remote" = "local") by decide)]
    dsimp only
    rw [if_pos (by rw [hlp]; simp)]
    unfold Controller.queue_remote_op
    rfl
  · rw [h12]
    unfold Controller.process_pending_ops
    dsimp only
    rw [if_pos rfl]
    unfold Controller.play
    unfold Controller.check_priority
    rw [if_neg (show ¬("remote" = "local") by decide)]
    dsimp only
    rw [if_neg (by simp)]
    rw [hmode]
    dsimp only
    unfold Controller.play_auto_mode
    dsimp only
    rw [hcue]
    dsimp only
    rw [haud]
    dsimp only
    rw [if_neg (fun hc => by rw [hsb] at hc; simp at hc)]
    rfl
  · rw [h12]
    unfold Controller.process_pending_ops
    dsimp only
    rw [if_pos rfl]
    unfold Controller.play
    unfold Controller.check_priority
    rw [if_neg (show ¬("remote" = "local") by decide)]
    dsimp only
    rw [if_neg (by simp)]
    rw [hmode]
    dsimp only
    unfold Controller.play_auto_mode
    dsimp only
    rw [hcue]
    dsimp only
    rw [haud]
    dsimp only
    rw [if_neg (fun hc => by rw [hsb] at hc; simp at hc)]
    simp [Controller.notify]

/-- C2 witness: the deferral scenario evaluated on `ctrlStopped`. -/
theorem c2_remote_play_deferral_witness :
    (ctrlStopped.play "remote" 0).1 = false ∧
    (({ (ctrlStopped.play "remote" 0).2 with
        local_priority := false }).process_pending_ops 1).is_playing =
      true := by
  have h := c2_remote_play_deferral ctrlStopped cueA trackA 0 1 rfl rfl rfl
    rfl (by decide) (by decide) (by decide) rfl
  exact ⟨h.1, h.2.2.2.1⟩
